import Mathlib

/-!
Verification development for the autonomous code-generation-and-execution
agent of the workflow-ai repository (Backend/agent_core).  The Python
modules are shallowly embedded as executable Lean definitions: pure string
manipulation becomes functions over character lists, filesystem and model
behaviour become explicit environment parameters, and the orchestration
loop of MainAgent.run becomes a terminating recursive function.
-/

set_option maxRecDepth 8192

namespace WorkflowAI

/-! ## String helpers mirroring the Python primitives used by the source -/

/-- Check whether `needle` is a prefix of `hay` (character lists). -/
def prefix_match : List Char → List Char → Bool
  | [], _ => true
  | _ :: _, [] => false
  | c :: cs, d :: ds => c == d && prefix_match cs ds

/-- Index of the first occurrence of `needle` in `hay`, as in Python
`str.find` (but returning `none` instead of `-1`). -/
def find_sub (needle : List Char) : List Char → Option Nat
  | [] => if prefix_match needle [] then some 0 else none
  | c :: t =>
    if prefix_match needle (c :: t) then some 0
    else (find_sub needle t).map (fun n => n + 1)

/-- Python `hay.find(needle)` (character index, `none` for `-1`). -/
def str_find (hay needle : String) : Option Nat :=
  find_sub needle.data hay.data

/-- Python `hay.find(needle, start)`. -/
def str_find_from (hay needle : String) (start : Nat) : Option Nat :=
  (find_sub needle.data (hay.data.drop start)).map (fun n => n + start)

/-- Python `needle in hay`. -/
def contains_sub (hay needle : String) : Bool :=
  (str_find hay needle).isSome

/-- Python slice `s[a:b]` for `a ≤ b`. -/
def str_slice (s : String) (a b : Nat) : String :=
  String.mk ((s.data.drop a).take (b - a))

/-- Python slice `s[:n]`. -/
def take_chars (s : String) (n : Nat) : String :=
  String.mk (s.data.take n)

/-- Python `s.strip()`. -/
def py_strip (s : String) : String :=
  String.mk (((s.data.dropWhile Char.isWhitespace).reverse.dropWhile Char.isWhitespace).reverse)

/-- Python `s.lower()` (ASCII case folding suffices for the source's patterns). -/
def py_lower (s : String) : String :=
  String.mk (s.data.map Char.toLower)

/-- Python `s.startswith(pre)`. -/
def py_startswith (s pre : String) : Bool :=
  prefix_match pre.data s.data

/-- Python `sep.join(xs)`. -/
def join_with (sep : String) : List String → String
  | [] => ""
  | [x] => x
  | x :: y :: rest => x ++ sep ++ join_with sep (y :: rest)

/-- Split a character list on a separator character. -/
def split_on_char (c : Char) : List Char → List (List Char)
  | [] => [[]]
  | x :: t =>
    match split_on_char c t with
    | [] => if x == c then [[], []] else [[x]]
    | h :: t2 => if x == c then [] :: h :: t2 else (x :: h) :: t2

/-- Number of lines of `s` as counted by Python `len(s.splitlines())`
(for strings whose only line terminator is a newline character). -/
def py_line_count (s : String) : Nat :=
  if s.data = [] then 0
  else (split_on_char '\n' s.data).length - (if s.data.getLast? = some '\n' then 1 else 0)

/-- Number of positions of `hay` at which `needle` occurs. -/
def count_sub (needle : List Char) : List Char → Nat
  | [] => 0
  | c :: t => (if prefix_match needle (c :: t) then 1 else 0) + count_sub needle t

/-- Number of occurrences of `needle` in `hay`. -/
def occurrences (hay needle : String) : Nat :=
  count_sub needle.data hay.data

/-- Python `str(x)` for an optional string, as interpolated by an f-string:
`None` prints as the four characters `None`. -/
def py_str_of_opt : Option String → String
  | some s => s
  | none => "None"

/-! ## CodeExecutionModule (Backend/agent_core/code_execution_module.py)

The classification that `execute_code` applies to a finished subprocess
(lines 148-186), the timeout result (lines 187-198), and the other return
paths of the function. -/

/-- The `stdout_error_patterns` list (code_execution_module.py lines 17-27).
Each compiled regex is a literal string searched case-insensitively, so the
patterns are kept here in lowercase. -/
def stdout_error_patterns : List String :=
  ["error:",
   "exception:",
   "traceback (most recent call last):",
   "failed to",
   "can\x27t find",
   "could not process",
   "invalid file",
   "unexpected error occurred",
   "no module named"]

/-- `pattern.search(actual_stdout)` over the stdout error patterns
(code_execution_module.py lines 164-169): case-insensitive substring search. -/
def stdout_has_error_pattern (actual_stdout : String) : Bool :=
  stdout_error_patterns.any (fun p => contains_sub (py_lower actual_stdout) p)

/-- The dict returned by `CodeExecutionModule.execute_code`. -/
structure ExecResult where
  stdout : String
  stderr : String
  exit_code : Int
  success : Bool
  error : Option String
deriving DecidableEq, Repr

/-- Success determination of `execute_code` for a subprocess that ran to
completion (code_execution_module.py lines 148-186): stdout and stderr are
stripped; exit code 0 with any stderr content is a failure; exit code 0
with an error pattern in stdout is a failure; only exit code 0 with empty
stderr and pattern-free stdout is a success. -/
def classify_execution (exit_code : Int) (stdout stderr : String) : ExecResult :=
  let actual_stdout := py_strip stdout
  let actual_stderr := py_strip stderr
  if exit_code == 0 then
    if actual_stderr ≠ "" then
      { stdout := actual_stdout, stderr := actual_stderr, exit_code := exit_code,
        success := false, error := some actual_stderr }
    else if stdout_has_error_pattern actual_stdout then
      { stdout := actual_stdout, stderr := actual_stderr, exit_code := exit_code,
        success := false,
        error := some ("Error pattern found in stdout: " ++ take_chars actual_stdout 200 ++ "...") }
    else
      { stdout := actual_stdout, stderr := actual_stderr, exit_code := exit_code,
        success := true, error := none }
  else
    let base :=
      if actual_stderr ≠ "" then actual_stderr
      else "Execution failed with exit code " ++ toString exit_code ++
           " and no specific error message on stderr."
    let msg :=
      if actual_stderr = "" && actual_stdout ≠ "" then
        base ++ " Stdout was: " ++ take_chars actual_stdout 200 ++ "..."
      else base
    { stdout := actual_stdout, stderr := actual_stderr, exit_code := exit_code,
      success := false, error := some msg }

/-- The timeout return value of `execute_code`
(code_execution_module.py lines 187-198). -/
def timeout_exec_result (timeout_seconds : Nat) : ExecResult :=
  { stdout := ""
    stderr := "Error: Execution timed out after " ++ toString timeout_seconds ++ " seconds."
    exit_code := -1
    success := false
    error := some ("Execution timed out after " ++ toString timeout_seconds ++ " seconds.") }

/-! ### Control-flow paths of `execute_code` and their filesystem effects

`execute_code` (code_execution_module.py lines 71-221) allocates a fresh
virtual-environment directory (`tempfile.mkdtemp`, line 96) and, later, a
temporary program file inside it (lines 117-119); the `finally` block
(lines 205-221) removes the temporary file and then the directory.  The
constructors below enumerate the exit paths of the function. -/

inductive ExecOutcome
  /-- `code_string` empty: early return before any allocation (lines 77-79). -/
  | noCode
  /-- `subprocess.check_call([python, -m, venv, ...])` raised (line 104),
  caught by the generic handler (lines 202-204). -/
  | venvCreationError
  /-- `_install_packages` returned false: early return inside the `try`
  (lines 111-113). -/
  | installFailure
  /-- The child process ran to completion (lines 136-186). -/
  | completed (exit_code : Int) (stdout stderr : String)
  /-- `subprocess.TimeoutExpired` (lines 187-198). -/
  | timeoutExpired
  /-- `FileNotFoundError`: interpreter missing (lines 199-201). -/
  | interpreterNotFound
  /-- Any other exception (lines 202-204). -/
  | unexpectedError (msg : String)
deriving DecidableEq, Repr

/-- The dict `execute_code` returns on each exit path. -/
def execute_code_result (timeout_seconds : Nat) : ExecOutcome → ExecResult
  | .noCode =>
    { stdout := "", stderr := "Error: No code provided.", exit_code := -1,
      success := false, error := some "No code provided" }
  | .venvCreationError =>
    { stdout := "", stderr := "Error: An unexpected error occurred: venv creation failed",
      exit_code := -1, success := false, error := some "venv creation failed" }
  | .installFailure =>
    { stdout := "", stderr := "Error: Failed to install required packages.", exit_code := -1,
      success := false, error := some "Failed to install required packages" }
  | .completed exit_code stdout stderr => classify_execution exit_code stdout stderr
  | .timeoutExpired => timeout_exec_result timeout_seconds
  | .interpreterNotFound =>
    { stdout := "", stderr := "Error: Python interpreter not found.", exit_code := -1,
      success := false, error := some "Python interpreter not found" }
  | .unexpectedError msg =>
    { stdout := "", stderr := "Error: An unexpected error occurred: " ++ msg, exit_code := -1,
      success := false, error := some msg }

/-- Filesystem events performed by `execute_code` on the sandbox artifacts. -/
inductive ExecEvent
  | createVenvDir
  | createTempFile
  | removeTempFile
  | removeVenvDir
deriving DecidableEq, Repr

/-- What the operating system does with the two removal calls of the
`finally` block: `os.remove` (code_execution_module.py lines 207-212) and
`shutil.rmtree` (lines 214-221) are each wrapped in a `try/except` that
only logs a warning on failure, so a removal that raises leaves the
artifact behind (the source's own comment notes rmtree may fail on
Windows while files are in use). -/
structure CleanupBehaviour where
  remove_temp_file_succeeds : Bool
  remove_venv_dir_succeeds : Bool
deriving DecidableEq, Repr

/-- The removal event of the temporary program file, emitted only when the
`os.remove` call succeeds (its exception is caught and logged,
code_execution_module.py lines 207-212). -/
def temp_file_removal_events (cleanup : CleanupBehaviour) : List ExecEvent :=
  if cleanup.remove_temp_file_succeeds then [.removeTempFile] else []

/-- The removal event of the venv directory, emitted only when the
`shutil.rmtree` call succeeds (its exception is caught and logged,
code_execution_module.py lines 214-221). -/
def venv_dir_removal_events (cleanup : CleanupBehaviour) : List ExecEvent :=
  if cleanup.remove_venv_dir_succeeds then [.removeVenvDir] else []

/-- The ordered creations and removals of sandbox artifacts on each exit
path of `execute_code`: the venv directory is created first (line 96), the
program file second (lines 117-119); the `finally` block attempts to
remove the file (lines 207-212) and then the directory (lines 214-221),
each only if it was created, and each attempt removes its artifact only
when the OS call succeeds. -/
def execute_code_events (cleanup : CleanupBehaviour) : ExecOutcome → List ExecEvent
  | .noCode => []
  | .venvCreationError => [.createVenvDir] ++ venv_dir_removal_events cleanup
  | .installFailure => [.createVenvDir] ++ venv_dir_removal_events cleanup
  | .completed _ _ _ =>
    [.createVenvDir, .createTempFile] ++ temp_file_removal_events cleanup ++
      venv_dir_removal_events cleanup
  | .timeoutExpired =>
    [.createVenvDir, .createTempFile] ++ temp_file_removal_events cleanup ++
      venv_dir_removal_events cleanup
  | .interpreterNotFound =>
    [.createVenvDir, .createTempFile] ++ temp_file_removal_events cleanup ++
      venv_dir_removal_events cleanup
  | .unexpectedError _ =>
    [.createVenvDir, .createTempFile] ++ temp_file_removal_events cleanup ++
      venv_dir_removal_events cleanup

/-- Counts of sandbox artifacts (agent_venv_* directories under temp_env,
and temporary .py program files) existing on disk. -/
structure SandboxFs where
  venv_dirs : Nat
  temp_files : Nat
deriving DecidableEq, Repr

/-- Effect of one filesystem event. -/
def apply_event (fs : SandboxFs) : ExecEvent → SandboxFs
  | .createVenvDir => { fs with venv_dirs := fs.venv_dirs + 1 }
  | .createTempFile => { fs with temp_files := fs.temp_files + 1 }
  | .removeTempFile => { fs with temp_files := fs.temp_files - 1 }
  | .removeVenvDir => { fs with venv_dirs := fs.venv_dirs - 1 }

/-! ## FeedbackControlModule (Backend/agent_core/feedback_control_module.py) -/

/-- The dict returned by `FeedbackControlModule.prepare_for_retry`. -/
structure RetryDecision where
  should_retry : Bool
  refined_prompt : Option String
  next_retry_attempt : Nat
deriving DecidableEq, Repr

/-- `FeedbackControlModule.prepare_for_retry` (feedback_control_module.py
lines 10-46): refuses once `current_retry_attempt >= max_retries`
(lines 28-30); otherwise appends the joined feedback to `original_prompt`
(lines 32-46). -/
def prepare_for_retry (max_retries : Nat) (original_prompt : String)
    (validation_feedback : List String) (current_retry_attempt : Nat) : RetryDecision :=
  if current_retry_attempt ≥ max_retries then
    { should_retry := false, refined_prompt := none, next_retry_attempt := current_retry_attempt }
  else
    let feedback_summary := join_with "\n" validation_feedback
    { should_retry := true
      refined_prompt := some
        (original_prompt ++
         "\n\n--- Previous Attempt Feedback ---\nThe previous attempt to generate and run code based on the above instructions failed with the following issues:\n" ++
         feedback_summary ++
         "\nPlease analyze this feedback and provide a corrected version of the code.\n--- End of Feedback ---")
      next_retry_attempt := current_retry_attempt + 1 }

/-- The prompt used for the next attempt after a retryable failure:
MainAgent.run assigns `current_prompt = retry_decision["refined_prompt"]`
(main_agent.py lines 176-178 and 239-241), having passed the *current*
(possibly already refined) prompt to `prepare_for_retry`. -/
def next_prompt (max_retries : Nat) (current_prompt : String)
    (validation_feedback : List String) (current_retry_attempt : Nat) : String :=
  (prepare_for_retry max_retries current_prompt validation_feedback
      current_retry_attempt).refined_prompt.getD current_prompt

/-- The constant header of the feedback section that `prepare_for_retry`
appends to its prompt argument. -/
def feedback_marker : String := "--- Previous Attempt Feedback ---"

/-- The full feedback section appended by `prepare_for_retry` to its
prompt argument, as a function of the joined feedback summary. -/
def feedback_block (feedback_summary : String) : String :=
  "\n\n--- Previous Attempt Feedback ---\nThe previous attempt to generate and run code based on the above instructions failed with the following issues:\n" ++
  feedback_summary ++
  "\nPlease analyze this feedback and provide a corrected version of the code.\n--- End of Feedback ---"

/-! ## Execution-failure handling in MainAgent.run (main_agent.py lines 201-254) -/

/-- Terminal statuses MainAgent.run constructs (string values of the
`status` key of `final_agent_result`). -/
inductive RunStatus
  | SUCCESS
  | FAILURE_NO_INPUT
  | FAILURE_INSTRUCTION_PROCESSING
  | FAILURE_CODE_GENERATION
  | FAILURE_EXECUTION
  | FAILURE_CRITICAL_EXECUTION
  | CRITICAL_FAILURE_UNHANDLED_EXCEPTION
  | UNKNOWN_FINAL_STATE
deriving DecidableEq, Repr

/-- The status strings as they appear in the Python dicts. -/
def run_status_name : RunStatus → String
  | .SUCCESS => "SUCCESS"
  | .FAILURE_NO_INPUT => "FAILURE_NO_INPUT"
  | .FAILURE_INSTRUCTION_PROCESSING => "FAILURE_INSTRUCTION_PROCESSING"
  | .FAILURE_CODE_GENERATION => "FAILURE_CODE_GENERATION"
  | .FAILURE_EXECUTION => "FAILURE_EXECUTION"
  | .FAILURE_CRITICAL_EXECUTION => "FAILURE_CRITICAL_EXECUTION"
  | .CRITICAL_FAILURE_UNHANDLED_EXCEPTION => "CRITICAL_FAILURE_UNHANDLED_EXCEPTION"
  | .UNKNOWN_FINAL_STATE => "UNKNOWN_FINAL_STATE"

/-- Modelled from the spec: the `critical_error_patterns` attribute that
MainAgent.run reads from its CodeExecutionModule instance (main_agent.py
line 216) is not defined anywhere under src/; only this caller exists.
Spec section 4.3 step 2 describes the signatures: missing module, missing
file, permission denied, syntax/indentation error, unhandled
attribute/type error.  Searched case-insensitively like the stdout
patterns. -/
def critical_error_patterns : List String :=
  ["no module named",
   "modulenotfounderror",
   "filenotfounderror",
   "no such file or directory",
   "permission denied",
   "permissionerror",
   "syntaxerror",
   "indentationerror",
   "attributeerror",
   "typeerror"]

/-- Python `execution_result.get("stderr") or execution_result.get("stdout")`
(main_agent.py line 214): `or` takes stdout when stderr is falsy. -/
def error_output_of (r : ExecResult) : String :=
  if r.stderr ≠ "" then r.stderr else r.stdout

/-- The critical-error test of MainAgent.run (main_agent.py lines 211-220):
only applied when the exit code is exactly 1, and only when some error
output exists. -/
def is_critical_error (r : ExecResult) : Bool :=
  r.exit_code == 1 &&
    (error_output_of r ≠ "" &&
     critical_error_patterns.any (fun p => contains_sub (py_lower (error_output_of r)) p))

/-- The feedback list built for a failed execution
(main_agent.py lines 202-206). -/
def execution_error_feedback (r : ExecResult) : List String :=
  ["Code execution failed: " ++ py_str_of_opt r.error] ++
  (if r.stdout ≠ "" then ["STDOUT:\n" ++ r.stdout] else []) ++
  (if r.stderr ≠ "" then ["STDERR:\n" ++ r.stderr] else [])

/-- Continuation decided by MainAgent.run after a cycle. -/
inductive LoopStep
  | finalize (status : RunStatus)
  | retry (refined_prompt : String) (next_retry_attempt : Nat)
deriving DecidableEq, Repr

/-- Whether a loop step retries. -/
def LoopStep.is_retry : LoopStep → Bool
  | .finalize _ => false
  | .retry _ _ => true

/-- The retry attempt a loop step starts, when it starts one. -/
def LoopStep.next_attempt : LoopStep → Option Nat
  | .finalize _ => none
  | .retry _ n => some n

/-- MainAgent.run's handling of a failed execution result
(main_agent.py lines 201-254): a critical error (exit code 1 matching a
critical pattern) finalizes immediately as FAILURE_CRITICAL_EXECUTION
(lines 222-231); everything else — timeouts included, since their exit
code is -1 — is offered to `prepare_for_retry`, retrying when allowed
(lines 233-243) and finalizing as FAILURE_EXECUTION otherwise
(lines 244-254). -/
def handle_execution_failure (max_retries : Nat) (current_prompt : String)
    (current_retry_attempt : Nat) (r : ExecResult) : LoopStep :=
  if is_critical_error r then
    .finalize .FAILURE_CRITICAL_EXECUTION
  else
    let d := prepare_for_retry max_retries current_prompt (execution_error_feedback r)
      current_retry_attempt
    if d.should_retry then
      .retry (d.refined_prompt.getD current_prompt) d.next_retry_attempt
    else
      .finalize .FAILURE_EXECUTION

/-! ## A2A task lifecycle (Backend/agent_core/app_agent.py)

Task statuses are the strings stored in `task['status']['state']`. -/

/-- The `status_map` dict of `run_main_agent_for_a2a` with its
`.get(..., "unknown")` fallback (app_agent.py lines 271-279). -/
def a2a_status_map (status : String) : String :=
  if status = "SUCCESS" then "completed"
  else if status = "FAILURE_NO_INPUT" then "failed"
  else if status = "FAILURE_INSTRUCTION_PROCESSING" then "failed"
  else if status = "FAILURE_CODE_GENERATION" then "failed"
  else if status = "FAILURE_MAX_RETRIES" then "failed"
  else if status = "CRITICAL_FAILURE_UNHANDLED_EXCEPTION" then "failed"
  else "unknown"

/-- Operations that write a task's status after its creation. -/
inductive TaskOp
  /-- `file_processor_tasks_cancel` (app_agent.py lines 768-806). -/
  | cancelOp
  /-- The drive loop finishing and storing the mapped result status
  (app_agent.py lines 279, 286-287): unconditional assignment. -/
  | finishOp (result_status : String)
  /-- The early-failure paths of `run_main_agent_for_a2a` and of the
  background thread (app_agent.py lines 199-224, 244-253, 400-405,
  434-441): unconditional assignment of "failed". -/
  | configFailOp
deriving DecidableEq, Repr

/-- Effect of one lifecycle operation on the stored status string.
Cancellation (app_agent.py lines 786-789) only marks non-final tasks;
the finishing drive loop and the failure paths assign unconditionally. -/
def apply_task_op (state : String) : TaskOp → String
  | .cancelOp =>
    if state = "completed" ∨ state = "failed" ∨ state = "canceled" ∨ state = "unknown" then state
    else "canceled"
  | .finishOp result_status => a2a_status_map result_status
  | .configFailOp => "failed"

/-! ## InstructionProcessingModule
(Backend/agent_core/instruction_processing_module.py) -/

/-- What the filesystem does when `_read_file_content` opens a path as a
text file: the file's decoded content, `FileNotFoundError`,
`UnicodeDecodeError`, or some other exception. -/
inductive FsOutcome
  | found (content : String)
  | notFound
  | decodeError
  | otherError (msg : String)

/-- Python `os.path.splitext(p)[1]`: the extension of the last path
component, empty when the component's only dots are leading ones. -/
def splitext_ext (p : String) : String :=
  let base :=
    match (p.data.enum.filter (fun x => x.2 == '/' || x.2 == '\\')).getLast? with
    | some (i, _) => p.data.drop (i + 1)
    | none => p.data
  match (base.enum.filter (fun x => x.2 == '.')).getLast? with
  | some (j, _) =>
    if (base.take j).any (fun c => !(c == '.')) then String.mk (base.drop j) else ""
  | none => ""

/-- Python `os.path.basename(p)` (for the note strings of the prompt). -/
def py_basename (p : String) : String :=
  match (p.data.enum.filter (fun x => x.2 == '/' || x.2 == '\\')).getLast? with
  | some (i, _) => String.mk (p.data.drop (i + 1))
  | none => p

/-- `InstructionProcessingModule._read_file_content`
(instruction_processing_module.py lines 8-36): Excel extensions yield the
marker without touching the file; otherwise the text read is attempted and
each exception yields the corresponding pair. -/
def read_file_content (path : String) (fs : String → FsOutcome) :
    Option String × Option String :=
  let ext := py_lower (splitext_ext path)
  if ext == ".xlsx" || ext == ".xls" then
    (some ("EXCEL_FILE_MARKER:" ++ path), none)
  else
    match fs path with
    | .found content => (some content, none)
    | .notFound => (none, some ("File not found: " ++ path))
    | .decodeError =>
      (some ("NON_TEXT_FILE_MARKER:" ++ path), some ("Could not decode as text: " ++ path))
    | .otherError msg => (none, some ("Error reading file " ++ path ++ ": " ++ msg))

/-- The per-file Excel directive added to the prompt
(instruction_processing_module.py lines 63-67). -/
def excel_instruction_for (excel_file_path : String) : String :=
  "- An Excel file is provided at path: \x27" ++ excel_file_path ++
  "\x27. Your generated Python code MUST use a library like pandas to read this file. " ++
  "The code should handle potential errors during file reading (e.g., file not found, incorrect format for pandas, corrupted file) gracefully. " ++
  "If an error occurs reading the Excel file, print a clear error message to standard error (stderr) and exit with a non-zero status code."

/-- The three accumulators of the file loop of `process_instructions`. -/
structure GatherAcc where
  file_context_str : String
  excel_file_instructions : List String
  other_file_errors : List String
deriving Repr

/-- The contribution of one path to the loop accumulators
(instruction_processing_module.py lines 52-74): a read error diverts the
file to `other_file_errors` and skips the rest (lines 54-59); otherwise
the content is dispatched on its marker prefix (lines 61-74).  (The
NON_TEXT branch of line 68 is unreachable because a decode error always
carries an error message, but it is kept to mirror the source.) -/
def file_contribution (path : String) (fs : String → FsOutcome) : GatherAcc :=
  match read_file_content path fs with
  | (_, some e) =>
    { file_context_str := ""
      excel_file_instructions := []
      other_file_errors :=
        ["Note: Could not directly read file \x27" ++ py_basename path ++ "\x27. Error: " ++ e] }
  | (some content, none) =>
    if content ≠ "" ∧ py_startswith content "EXCEL_FILE_MARKER:" then
      let excel_file_path := join_with ":" (content.splitOn ":").tail
      { file_context_str := ""
        excel_file_instructions := [excel_instruction_for excel_file_path]
        other_file_errors := [] }
    else if content ≠ "" ∧ py_startswith content "NON_TEXT_FILE_MARKER:" then
      { file_context_str :=
          "\n--- Note on " ++ py_basename path ++ " ---\n" ++
          "The file \x27" ++ path ++
          "\x27 could not be read as plain text. If relevant to the task, your code might need to handle it or ask for clarification.\n" ++
          "--- End of Note on " ++ py_basename path ++ " ---\n"
        excel_file_instructions := []
        other_file_errors := [] }
    else if content ≠ "" then
      { file_context_str :=
          "\n--- Content of " ++ py_basename path ++ " ---\n" ++ content ++
          "\n--- End of " ++ py_basename path ++ " ---\n"
        excel_file_instructions := []
        other_file_errors := [] }
    else
      { file_context_str := "", excel_file_instructions := [], other_file_errors := [] }
  | (none, none) =>
    { file_context_str := "", excel_file_instructions := [], other_file_errors := [] }

/-- The file loop of `process_instructions` (instruction_processing_module.py
lines 51-74), accumulating the contributions in path order. -/
def gather_file_inputs (paths : List String) (fs : String → FsOutcome) : GatherAcc :=
  match paths with
  | [] => { file_context_str := "", excel_file_instructions := [], other_file_errors := [] }
  | path :: rest =>
    let c := file_contribution path fs
    let r := gather_file_inputs rest fs
    { file_context_str := c.file_context_str ++ r.file_context_str
      excel_file_instructions := c.excel_file_instructions ++ r.excel_file_instructions
      other_file_errors := c.other_file_errors ++ r.other_file_errors }

/-- The dict returned by `process_instructions`. -/
structure ProcessedInput where
  prompt : String
  error : Option String
deriving Repr

/-- The fixed task directive appended to every prompt
(instruction_processing_module.py lines 93-95). -/
def task_directive : String :=
  "\n\nTask: Based on ALL the instructions, file processing requirements, and text contexts above, generate the required Python code. " ++
  "The code should be robust. If critical errors occur (like being unable to read a required input file), print a descriptive error message to stderr and exit with a non-zero status code. " ++
  "Ensure your code is complete, handles file operations, performs calculations/transformations, and produces specified outputs."

/-- `InstructionProcessingModule.process_instructions`
(instruction_processing_module.py lines 38-100): after the file loop, the
empty-input check of lines 76-78 fires exactly when the instructions are
empty and no file contributed context or an Excel directive; otherwise the
prompt is assembled from its sections (lines 80-95). -/
def process_instructions (instructions : String) (file_paths : List String)
    (fs : String → FsOutcome) : ProcessedInput :=
  let g := gather_file_inputs file_paths fs
  if instructions = "" ∧ g.file_context_str = "" ∧ g.excel_file_instructions = [] then
    { prompt := "", error := some "No input provided for processing." }
  else
    let prompt := "User Instructions: " ++ instructions ++ "\n"
    let prompt :=
      if g.excel_file_instructions ≠ [] then
        prompt ++ "\nMandatory Excel File Processing Instructions:\n" ++
        join_with "\n" g.excel_file_instructions ++
        "\nRemember to import necessary libraries (like pandas and openpyxl) for Excel handling in your generated Python code.\n"
      else prompt
    let prompt :=
      if g.file_context_str ≠ "" then
        prompt ++ "\nRelevant Text File Contexts:\n" ++ g.file_context_str
      else prompt
    let prompt :=
      if g.other_file_errors ≠ [] then
        prompt ++ "\nNotes on File Access:\n" ++ join_with "\n" g.other_file_errors ++ "\n"
      else prompt
    { prompt := prompt ++ task_directive, error := none }

/-- A path whose extension marks it as an Excel file
(instruction_processing_module.py line 16). -/
def is_excel_path (p : String) : Bool :=
  py_lower (splitext_ext p) == ".xlsx" || py_lower (splitext_ext p) == ".xls"

/-- A file input that contributes to the prompt (rather than only to the
access notes): an Excel-classified path, or a path whose text read
succeeds with nonempty content. -/
def usable_file_input (fs : String → FsOutcome) (p : String) : Bool :=
  is_excel_path p ||
    (match fs p with
     | .found content => !(content == "")
     | _ => false)

/-! ## Code extraction (Backend/agent_core/code_generation_module.py) -/

/-- The fence markers of `_extract_code_from_response`. -/
def python_fence : String := "```python"

/-- The generic fence marker. -/
def code_fence : String := "```"

/-- The content heuristic for an untagged fenced block
(code_generation_module.py line 94). -/
def heuristic_block_is_code (potential_code : String) : Bool :=
  contains_sub potential_code "def " || contains_sub potential_code "import " ||
  contains_sub potential_code "print(" || contains_sub potential_code "class "

/-- The weaker heuristic for a fence-free response
(code_generation_module.py line 103): note the missing `class` token. -/
def raw_response_looks_like_code (t : String) : Bool :=
  contains_sub t "def " || contains_sub t "import " || contains_sub t "print("

/-- The final fallback of `_extract_code_from_response`
(code_generation_module.py lines 100-108): a response with no fence
marker at all, fewer than 20 lines, and a code-like token is returned
whole. -/
def extract_raw_fallback (t : String) : Option String :=
  if !contains_sub t code_fence ∧ py_line_count t < 20 ∧ raw_response_looks_like_code t then
    some (py_strip t)
  else none

/-- The untagged-block fallback of `_extract_code_from_response`
(code_generation_module.py lines 86-98), falling through to the raw
heuristic when no closed code-like block is found. -/
def extract_general_block (t : String) : Option String :=
  match str_find t code_fence with
  | some g =>
    match str_find_from t code_fence (g + code_fence.length) with
    | some e =>
      let potential_code := py_strip (str_slice t (g + code_fence.length) e)
      if heuristic_block_is_code potential_code then some potential_code
      else extract_raw_fallback t
    | none => extract_raw_fallback t
  | none => extract_raw_fallback t

/-- `CodeGenerationModule._extract_code_from_response`
(code_generation_module.py lines 73-108): a closed block tagged
```python wins; otherwise the general-block and raw fallbacks apply. -/
def extract_code_from_response (t : String) : Option String :=
  match str_find t python_fence with
  | some i =>
    match str_find_from t code_fence (i + python_fence.length) with
    | some j => some (py_strip (str_slice t (i + python_fence.length) j))
    | none => extract_general_block t
  | none => extract_general_block t

/-! ## MainAgent.run (Backend/agent_core/main_agent.py lines 68-312) -/

/-- The dict returned by `CodeGenerationModule.generate_code`
(code_generation_module.py lines 132-310). -/
structure CodegenResult where
  code : Option String
  error : Option String
  syntax_valid : Bool
  required_packages : List String

/-- The test of main_agent.py line 167:
`if codegen_result.get("error") or not codegen_result.get("syntax_valid")`. -/
def codegen_failed (r : CodegenResult) : Bool :=
  r.error.isSome || !r.syntax_valid

/-- The feedback built for a failed generation attempt
(main_agent.py lines 158-161): note that a present-but-None error value is
interpolated as the string None. -/
def codegen_feedback (r : CodegenResult) : List String :=
  ["Code generation/syntax error: " ++ py_str_of_opt r.error]

/-- The named parameters of `CodeExecutionModule.execute_code` after
`self` (code_execution_module.py line 71). -/
def execute_code_keyword_params : List String :=
  ["code_string", "required_packages", "python_version"]

/-- The keyword arguments used at the `execute_code` call site in
`MainAgent.run` (main_agent.py lines 193-197). -/
def run_execute_call_kwargs : List String :=
  ["required_packages", "output_dir"]

/-- Python call semantics: a call raises `TypeError` when it passes a
keyword argument that is not among the callee's parameters. -/
def call_raises_unexpected_kwarg (params kwargs : List String) : Bool :=
  kwargs.any (fun k => !params.contains k)

/-- Whether the `execute_code` call in `MainAgent.run` raises `TypeError`. -/
def execute_call_raises_type_error : Bool :=
  call_raises_unexpected_kwarg execute_code_keyword_params run_execute_call_kwargs

/-- Status refinement of `OutputDeliveryModule.process_and_deliver_output`
when called with `expected_stdout = None` and `test_cases = None`
(output_delivery_module.py lines 34-52 and 77-82): the status is
overridden to FAILURE_EXECUTION only when the execution failed and the
incoming status was SUCCESS. -/
def process_and_deliver_status (status : RunStatus) (execution_success : Bool) : RunStatus :=
  if !execution_success ∧ status = .SUCCESS then .FAILURE_EXECUTION else status

/-- The prompt suffix added when an output directory is configured
(main_agent.py lines 133-142); only a truthy (nonempty) directory adds the
suffix, and the second sentence is a plain (non-f) string literal so its
placeholder braces survive verbatim. -/
def output_dir_instruction : Option String → String
  | none => ""
  | some d =>
    if d ≠ "" then
      "\nIMPORTANT: All output files MUST be saved to the directory: \x27" ++ d ++
      "\x27. When creating or saving files, use `os.path.join(\x27\x7bself.output_base_dir\x7d\x27, \x27your_filename.xlsx\x27)` or similar constructs to ensure they are placed in this specific output directory. Do NOT save files to the current working directory or any other location."
    else ""

/-- Configuration of a MainAgent instance (main_agent.py lines 18-27). -/
structure AgentConfig where
  max_retries : Nat
  execution_timeout : Nat

/-- The environment a run interacts with: the instruction file's content,
the configured input file paths, the filesystem, the model's generation
result per cycle, the sandbox behaviour per cycle, and the configured
output directory. -/
structure RunEnv where
  user_instructions : String
  input_file_paths : List String
  fs : String → FsOutcome
  codegen : Nat → CodegenResult
  exec : Nat → ExecOutcome
  output_base_dir : Option String

/-- The terminal state of a run: the status of `final_agent_result` and
the value of `current_retry_attempt` at finalization (the run performed
`final_retry_attempt + 1` generate cycles). -/
structure RunResult where
  status : RunStatus
  final_retry_attempt : Nat
deriving DecidableEq, Repr

/-- `prepare_for_retry` only allows a retry below the limit. -/
theorem should_retry_lt {m : Nat} {p : String} {fb : List String} {a : Nat}
    (h : (prepare_for_retry m p fb a).should_retry = true) : a < m := by
  unfold prepare_for_retry at h
  split at h
  · simp at h
  · omega

/-- `handle_execution_failure` only retries below the limit. -/
theorem handle_retry_lt {m : Nat} {p : String} {a : Nat} {r : ExecResult}
    {q : String} {n : Nat}
    (h : handle_execution_failure m p a r = .retry q n) : a < m := by
  unfold handle_execution_failure at h
  split at h
  · simp at h
  · simp only [] at h
    split at h
    · next hs => exact should_retry_lt hs
    · simp at h

/-- The iterative loop of `MainAgent.run` (main_agent.py lines 150-276).
Each cycle generates code (line 155); a generation or syntax failure
consults `prepare_for_retry` (lines 167-187); otherwise the
`execute_code` call is made with the `output_dir` keyword argument
(lines 193-197), which — when it raises — is caught by the top-level
handler (lines 283-292); were the call to return, the result would be
delivered on success (lines 256-276) and handled by the failure logic
otherwise (lines 201-254).  `attempt` is `current_retry_attempt`; the
recursive calls pass `retry_decision["next_retry_attempt"]`, which equals
`attempt + 1` whenever a retry is allowed. -/
def run_loop (cfg : AgentConfig) (env : RunEnv) (current_prompt : String)
    (attempt : Nat) : RunResult :=
  let cg := env.codegen attempt
  if codegen_failed cg then
    let d := prepare_for_retry cfg.max_retries current_prompt (codegen_feedback cg) attempt
    if h : d.should_retry then
      run_loop cfg env (d.refined_prompt.getD current_prompt) (attempt + 1)
    else
      { status := .FAILURE_CODE_GENERATION, final_retry_attempt := attempt }
  else
    if execute_call_raises_type_error then
      { status := .CRITICAL_FAILURE_UNHANDLED_EXCEPTION, final_retry_attempt := attempt }
    else
      let r := execute_code_result cfg.execution_timeout (env.exec attempt)
      if r.success then
        { status := process_and_deliver_status .SUCCESS r.success, final_retry_attempt := attempt }
      else
        match h2 : handle_execution_failure cfg.max_retries current_prompt attempt r with
        | .finalize st => { status := st, final_retry_attempt := attempt }
        | .retry p _ => run_loop cfg env p (attempt + 1)
termination_by cfg.max_retries - attempt
decreasing_by
  · have := should_retry_lt h
    omega
  · have := handle_retry_lt h2
    omega

/-- `MainAgent.run` (main_agent.py lines 68-312): empty instructions fail
first (lines 112-116), then instruction processing (lines 124-130), then
the loop runs on the processed prompt augmented with the output-directory
suffix (lines 132-142). -/
def run (cfg : AgentConfig) (env : RunEnv) : RunResult :=
  if env.user_instructions = "" then
    { status := .FAILURE_NO_INPUT, final_retry_attempt := 0 }
  else
    let processed := process_instructions env.user_instructions env.input_file_paths env.fs
    if processed.error.isSome then
      { status := .FAILURE_INSTRUCTION_PROCESSING, final_retry_attempt := 0 }
    else
      run_loop cfg env (processed.prompt ++ output_dir_instruction env.output_base_dir) 0

/-! ## Loop lemmas -/

/-- The `execute_code` call of MainAgent.run does pass an unexpected
keyword argument. -/
theorem execute_call_raises : execute_call_raises_type_error = true := by decide

/-- `run_loop` with the raising execution call: a cycle either retries a
failed generation or finalizes (at the unhandled exception when
generation succeeded). -/
theorem run_loop_eq (cfg : AgentConfig) (env : RunEnv) (prompt : String) (attempt : Nat) :
    run_loop cfg env prompt attempt =
      if codegen_failed (env.codegen attempt) = true then
        if (prepare_for_retry cfg.max_retries prompt
              (codegen_feedback (env.codegen attempt)) attempt).should_retry = true then
          run_loop cfg env
            ((prepare_for_retry cfg.max_retries prompt
                (codegen_feedback (env.codegen attempt)) attempt).refined_prompt.getD prompt)
            (attempt + 1)
        else { status := RunStatus.FAILURE_CODE_GENERATION, final_retry_attempt := attempt }
      else { status := RunStatus.CRITICAL_FAILURE_UNHANDLED_EXCEPTION, final_retry_attempt := attempt } := by
  rw [run_loop.eq_def]
  simp only [execute_call_raises, eq_self_iff_true, if_true, dite_eq_ite]

/-- A cycle whose generation succeeds ends the run at the raising
`execute_code` call. -/
theorem run_loop_codegen_ok (cfg : AgentConfig) (env : RunEnv) (prompt : String) (attempt : Nat)
    (h : codegen_failed (env.codegen attempt) = false) :
    run_loop cfg env prompt attempt =
      { status := RunStatus.CRITICAL_FAILURE_UNHANDLED_EXCEPTION, final_retry_attempt := attempt } := by
  rw [run_loop_eq]
  simp [h]

/-- Fuel-indexed helper: the loop never finalizes with status SUCCESS. -/
theorem run_loop_ne_success_aux (cfg : AgentConfig) (env : RunEnv) :
    ∀ (n : Nat) (prompt : String) (attempt : Nat), cfg.max_retries - attempt ≤ n →
      (run_loop cfg env prompt attempt).status ≠ RunStatus.SUCCESS := by
  intro n
  induction n with
  | zero =>
    intro prompt attempt h0
    rw [run_loop_eq]
    split
    · split
      · next hd => exact absurd (should_retry_lt hd) (by omega)
      · simp
    · simp
  | succ k ih =>
    intro prompt attempt hle
    rw [run_loop_eq]
    split
    · split
      · next hd =>
        have hlt := should_retry_lt hd
        exact ih ((prepare_for_retry cfg.max_retries prompt
            (codegen_feedback (env.codegen attempt)) attempt).refined_prompt.getD prompt)
          (attempt + 1) (by omega)
      · simp
    · simp

/-- The loop never finalizes with status SUCCESS. -/
theorem run_loop_status_ne_success (cfg : AgentConfig) (env : RunEnv)
    (prompt : String) (attempt : Nat) :
    (run_loop cfg env prompt attempt).status ≠ RunStatus.SUCCESS :=
  run_loop_ne_success_aux cfg env (cfg.max_retries - attempt) prompt attempt (Nat.le_refl _)

/-- Fuel-indexed helper: the retry counter at finalization never exceeds
the larger of its start value and the configured limit. -/
theorem run_loop_attempt_le_aux (cfg : AgentConfig) (env : RunEnv) :
    ∀ (n : Nat) (prompt : String) (attempt : Nat), cfg.max_retries - attempt ≤ n →
      (run_loop cfg env prompt attempt).final_retry_attempt ≤ max attempt cfg.max_retries := by
  intro n
  induction n with
  | zero =>
    intro prompt attempt h0
    rw [run_loop_eq]
    split
    · split
      · next hd => exact absurd (should_retry_lt hd) (by omega)
      · simp
    · simp
  | succ k ih =>
    intro prompt attempt hle
    rw [run_loop_eq]
    split
    · split
      · next hd =>
        have hlt := should_retry_lt hd
        have hrec := ih ((prepare_for_retry cfg.max_retries prompt
          (codegen_feedback (env.codegen attempt)) attempt).refined_prompt.getD prompt)
          (attempt + 1) (by omega)
        omega
      · simp
    · simp

/-- The retry counter at finalization never exceeds the larger of its
start value and the configured limit. -/
theorem run_loop_attempt_le (cfg : AgentConfig) (env : RunEnv)
    (prompt : String) (attempt : Nat) :
    (run_loop cfg env prompt attempt).final_retry_attempt ≤ max attempt cfg.max_retries :=
  run_loop_attempt_le_aux cfg env (cfg.max_retries - attempt) prompt attempt (Nat.le_refl _)

/-- Fuel-indexed helper: when every cycle's generation fails, the loop
retries until the limit and finalizes as a generation failure exactly at
the limit. -/
theorem run_loop_all_codegen_fail_aux (cfg : AgentConfig) (env : RunEnv)
    (hall : ∀ k, codegen_failed (env.codegen k) = true) :
    ∀ (n : Nat) (prompt : String) (attempt : Nat), cfg.max_retries - attempt ≤ n →
      attempt ≤ cfg.max_retries →
      run_loop cfg env prompt attempt =
        { status := RunStatus.FAILURE_CODE_GENERATION
          final_retry_attempt := cfg.max_retries } := by
  intro n
  induction n with
  | zero =>
    intro prompt attempt h0 hle
    rw [run_loop_eq]
    rw [if_pos (hall attempt)]
    split
    · next hd => exact absurd (should_retry_lt hd) (by omega)
    · next hd =>
      have : attempt = cfg.max_retries := by omega
      simp [this]
  | succ k ih =>
    intro prompt attempt hfuel hle
    rw [run_loop_eq]
    rw [if_pos (hall attempt)]
    split
    · next hd =>
      have hlt := should_retry_lt hd
      exact ih ((prepare_for_retry cfg.max_retries prompt
          (codegen_feedback (env.codegen attempt)) attempt).refined_prompt.getD prompt)
        (attempt + 1) (by omega) (by omega)
    · next hd =>
      have hge : ¬ attempt < cfg.max_retries := by
        intro hcon
        refine hd ?_
        unfold prepare_for_retry
        rw [if_neg (by omega)]
      have : attempt = cfg.max_retries := by omega
      simp [this]

/-- When every cycle's generation fails, a loop started within the limit
finalizes as a generation failure exactly at the limit. -/
theorem run_loop_all_codegen_fail (cfg : AgentConfig) (env : RunEnv)
    (hall : ∀ k, codegen_failed (env.codegen k) = true)
    (prompt : String) (attempt : Nat) (hle : attempt ≤ cfg.max_retries) :
    run_loop cfg env prompt attempt =
      { status := RunStatus.FAILURE_CODE_GENERATION
        final_retry_attempt := cfg.max_retries } :=
  run_loop_all_codegen_fail_aux cfg env hall (cfg.max_retries - attempt) prompt attempt
    (Nat.le_refl _) hle

/-! ## Shared example inputs -/

/-- A generation result whose extraction failed. -/
def cg_fail_example : CodegenResult :=
  { code := none, error := some "Code extraction failed from Vertex AI response."
    syntax_valid := false, required_packages := [] }

/-- A generation result with syntactically valid code. -/
def cg_ok_example : CodegenResult :=
  { code := some "print(40 + 2)", error := none, syntax_valid := true, required_packages := [] }

/-- A run environment whose every generation attempt fails. -/
def env_all_codegen_fail : RunEnv :=
  { user_instructions := "sum two numbers and print the result"
    input_file_paths := []
    fs := fun _ => .notFound
    codegen := fun _ => cg_fail_example
    exec := fun _ => .timeoutExpired
    output_base_dir := none }

/-- A run environment whose generation immediately succeeds. -/
def env_codegen_ok : RunEnv :=
  { env_all_codegen_fail with codegen := fun _ => cg_ok_example }

/-! ## Claim theorems -/

/-- C1: MainAgent.run invokes CodeExecutionModule.execute_code with an
output_dir keyword argument that execute_code's signature (code_string,
required_packages, python_version) does not accept, so for every run in
which code generation and syntax validation succeed the execution call
raises TypeError, the top-level handler converts the run to status
CRITICAL_FAILURE_UNHANDLED_EXCEPTION, and run never returns a result with
status SUCCESS. -/
theorem C1_output_dir_kwarg_typeerror :
    call_raises_unexpected_kwarg execute_code_keyword_params run_execute_call_kwargs = true
    ∧ (∀ (cfg : AgentConfig) (env : RunEnv) (prompt : String) (attempt : Nat),
        codegen_failed (env.codegen attempt) = false →
        run_loop cfg env prompt attempt =
          { status := RunStatus.CRITICAL_FAILURE_UNHANDLED_EXCEPTION
            final_retry_attempt := attempt })
    ∧ (∀ (cfg : AgentConfig) (env : RunEnv), (run cfg env).status ≠ RunStatus.SUCCESS) := by
  refine ⟨execute_call_raises, run_loop_codegen_ok, ?_⟩
  intro cfg env
  by_cases h1 : env.user_instructions = ""
  · simp [run, h1]
  · by_cases h2 : (process_instructions env.user_instructions env.input_file_paths env.fs).error.isSome
    · simp [run, h1, h2]
    · simp only [run, if_neg h1, if_neg h2]
      exact run_loop_status_ne_success cfg env _ 0

/-- Witness for C1: a run environment whose first generation attempt
succeeds ends at the unhandled-exception status. -/
theorem C1_output_dir_kwarg_typeerror_witness :
    run_loop { max_retries := 2, execution_timeout := 20 } env_codegen_ok "a prompt" 0 =
      { status := RunStatus.CRITICAL_FAILURE_UNHANDLED_EXCEPTION, final_retry_attempt := 0 } :=
  C1_output_dir_kwarg_typeerror.2.1 { max_retries := 2, execution_timeout := 20 }
    env_codegen_ok "a prompt" 0 (by decide)

/-- C4: for every task configured with max_retries = N whose attempts all
fail with retryable failures, the generate/execute loop performs at most
N+1 cycles (the final retry counter never exceeds N) and then terminates
with a failed result; prepare_for_retry returns should_retry = false
exactly when the current retry attempt index is at least max_retries. -/
theorem C4_retry_limit_bound :
    (∀ (max_retries : Nat) (original_prompt : String) (validation_feedback : List String)
        (current_retry_attempt : Nat),
        (prepare_for_retry max_retries original_prompt validation_feedback
            current_retry_attempt).should_retry = false ↔
          max_retries ≤ current_retry_attempt)
    ∧ (∀ (cfg : AgentConfig) (env : RunEnv),
        (run cfg env).final_retry_attempt ≤ cfg.max_retries)
    ∧ (∀ (cfg : AgentConfig) (env : RunEnv),
        env.user_instructions ≠ "" →
        (process_instructions env.user_instructions env.input_file_paths env.fs).error = none →
        (∀ k, codegen_failed (env.codegen k) = true) →
        run cfg env =
          { status := RunStatus.FAILURE_CODE_GENERATION
            final_retry_attempt := cfg.max_retries }) := by
  refine ⟨?_, ?_, ?_⟩
  · intro m p fb a
    unfold prepare_for_retry
    split
    · next h => simp; omega
    · next h => simp; omega
  · intro cfg env
    by_cases h1 : env.user_instructions = ""
    · simp [run, h1]
    · by_cases h2 : (process_instructions env.user_instructions env.input_file_paths env.fs).error.isSome
      · simp [run, h1, h2]
      · simp only [run, if_neg h1, if_neg h2]
        have := run_loop_attempt_le cfg env
          ((process_instructions env.user_instructions env.input_file_paths env.fs).prompt ++
            output_dir_instruction env.output_base_dir) 0
        omega
  · intro cfg env h1 h2 hall
    simp only [run, if_neg h1, h2, Option.isSome_none, Bool.false_eq_true, if_false]
    exact run_loop_all_codegen_fail cfg env hall _ 0 (Nat.zero_le _)

/-- Witness for C4: with max_retries = 2 and every generation failing, the
run finalizes as a generation failure with final retry counter 2 (three
cycles). -/
theorem C4_retry_limit_bound_witness :
    run { max_retries := 2, execution_timeout := 20 } env_all_codegen_fail =
      { status := RunStatus.FAILURE_CODE_GENERATION, final_retry_attempt := 2 } :=
  C4_retry_limit_bound.2.2 { max_retries := 2, execution_timeout := 20 }
    env_all_codegen_fail (by decide) (by decide) (fun _ => rfl)

/-- C2: the claim that classification is warning-tolerant on stderr fails
on the code: exit code 0 with a stderr consisting of a single
DeprecationWarning line is classified as a failure, not a success. -/
theorem C2_counterexample_warning_stderr :
    ¬ ((classify_execution 0 "All rows processed."
          "DeprecationWarning: np.bool is a deprecated alias").success = true) := by
  decide

/-- C2 (amended): for a run that exits with code 0, success holds exactly
when the stripped stderr is empty and the stripped stdout matches no error
pattern; any stderr content — a lone DeprecationWarning line included —
yields a failed result, and an error pattern in stdout (such as a
traceback header) yields a failed result even with exit code 0. -/
theorem C2_amended_strict_stderr :
    (∀ (stdout stderr : String),
        ((classify_execution 0 stdout stderr).success = true ↔
          (py_strip stderr = "" ∧ stdout_has_error_pattern (py_strip stdout) = false)))
    ∧ (classify_execution 0 "Processed 10 rows."
        "DeprecationWarning: np.bool is a deprecated alias").success = false
    ∧ (classify_execution 0
        "Traceback (most recent call last):\n  File main.py, line 3\nTypeError: boom"
        "").success = false := by
  refine ⟨?_, by decide, by decide⟩
  intro stdout stderr
  unfold classify_execution
  by_cases h1 : py_strip stderr = ""
  · by_cases h2 : stdout_has_error_pattern (py_strip stdout)
    · simp [h1, h2]
    · simp [h1, h2]
  · simp [h1]

/-- A timeout result never passes the critical-error test: its exit code
is -1, and the test requires exit code 1. -/
theorem timeout_not_critical (t : Nat) :
    is_critical_error (timeout_exec_result t) = false := by
  simp [is_critical_error, timeout_exec_result]

/-- Below the limit, `prepare_for_retry` allows the retry. -/
theorem prepare_should_retry_of_lt {m : Nat} (p : String) (fb : List String) {a : Nat}
    (h : a < m) : (prepare_for_retry m p fb a).should_retry = true := by
  unfold prepare_for_retry
  rw [if_neg (by omega)]

/-- Below the limit, `prepare_for_retry` advances the retry counter by one. -/
theorem prepare_next_of_lt {m : Nat} (p : String) (fb : List String) {a : Nat}
    (h : a < m) : (prepare_for_retry m p fb a).next_retry_attempt = a + 1 := by
  unfold prepare_for_retry
  rw [if_neg (by omega)]

/-- At or above the limit, `prepare_for_retry` refuses the retry. -/
theorem prepare_should_retry_of_ge {m : Nat} (p : String) (fb : List String) {a : Nat}
    (h : m ≤ a) : (prepare_for_retry m p fb a).should_retry = false := by
  unfold prepare_for_retry
  rw [if_pos (by omega)]

/-- C3: the claim that a timeout classification bypasses the
RetryController fails on the code: a timeout result (exit code -1) at
attempt 0 with max_retries = 2 is offered to prepare_for_retry, which
starts attempt 1. -/
theorem C3_counterexample_timeout_retried :
    (handle_execution_failure 2 "task prompt" 0 (timeout_exec_result 20)).is_retry = true
    ∧ (handle_execution_failure 2 "task prompt" 0 (timeout_exec_result 20)).next_attempt =
        some 1 := by
  constructor
  · decide
  · decide

/-- C3 (amended): a critical-failure classification (exit code 1 whose
error output matches a critical pattern) bypasses the retry logic and
finalizes the task as FAILURE_CRITICAL_EXECUTION regardless of remaining
retries; a timeout classification, however, is routed through
prepare_for_retry like a transient failure: attempt k+1 is started
whenever retries remain, and only with retries exhausted does it finalize
as FAILURE_EXECUTION. -/
theorem C3_amended_critical_bypass_timeout_retry :
    (∀ (max_retries : Nat) (prompt : String) (attempt : Nat) (r : ExecResult),
        is_critical_error r = true →
        handle_execution_failure max_retries prompt attempt r =
          LoopStep.finalize RunStatus.FAILURE_CRITICAL_EXECUTION)
    ∧ (∀ (max_retries : Nat) (prompt : String) (attempt : Nat) (t : Nat),
        attempt < max_retries →
        (handle_execution_failure max_retries prompt attempt
            (timeout_exec_result t)).next_attempt = some (attempt + 1))
    ∧ (∀ (max_retries : Nat) (prompt : String) (attempt : Nat) (t : Nat),
        max_retries ≤ attempt →
        handle_execution_failure max_retries prompt attempt (timeout_exec_result t) =
          LoopStep.finalize RunStatus.FAILURE_EXECUTION) := by
  refine ⟨?_, ?_, ?_⟩
  · intro m p a r h
    unfold handle_execution_failure
    rw [if_pos h]
  · intro m p a t ha
    unfold handle_execution_failure
    rw [if_neg (by simp [timeout_not_critical])]
    simp only []
    rw [if_pos (prepare_should_retry_of_lt p (execution_error_feedback (timeout_exec_result t)) ha)]
    simp [LoopStep.next_attempt,
      prepare_next_of_lt p (execution_error_feedback (timeout_exec_result t)) ha]
  · intro m p a t ha
    unfold handle_execution_failure
    rw [if_neg (by simp [timeout_not_critical])]
    simp only []
    rw [if_neg (by
      simp [prepare_should_retry_of_ge p (execution_error_feedback (timeout_exec_result t)) ha])]

/-- Witness for C3 (amended): an exit-code-1 FileNotFoundError result
finalizes critically even with retries remaining, while a timeout at
attempt 1 of 3 starts attempt 2. -/
theorem C3_amended_critical_bypass_timeout_retry_witness :
    handle_execution_failure 3 "a prompt" 1
        (classify_execution 1 "" "FileNotFoundError: input.xlsx not found") =
      LoopStep.finalize RunStatus.FAILURE_CRITICAL_EXECUTION
    ∧ (handle_execution_failure 3 "a prompt" 1 (timeout_exec_result 20)).next_attempt =
        some 2 :=
  ⟨C3_amended_critical_bypass_timeout_retry.1 3 "a prompt" 1
      (classify_execution 1 "" "FileNotFoundError: input.xlsx not found") (by decide),
    C3_amended_critical_bypass_timeout_retry.2.1 3 "a prompt" 1 20 (by decide)⟩

/-- C5: the claim that a terminal status (canceled included) is never
changed by a later operation fails on the code: cancellation marks a
working task canceled, but the background drive loop finishing afterwards
overwrites the stored status with the mapped run result. -/
theorem C5_counterexample_cancel_overwritten :
    apply_task_op "submitted" TaskOp.cancelOp = "canceled"
    ∧ apply_task_op (apply_task_op "submitted" TaskOp.cancelOp)
        (TaskOp.finishOp "FAILURE_CODE_GENERATION") = "failed" := by
  constructor
  · decide
  · decide

/-- C5 (amended): the cancel endpoint itself is a no-op on terminal states
(completed, failed, canceled, unknown), but the drive loop's completion
assigns the mapped result status unconditionally — it never consults the
stored state — so a canceled task's status is overwritten when the
background run finishes (for example canceled to completed on SUCCESS). -/
theorem C5_amended_cancel_not_sticky :
    (∀ s : String, (s = "completed" ∨ s = "failed" ∨ s = "canceled" ∨ s = "unknown") →
        apply_task_op s TaskOp.cancelOp = s)
    ∧ (∀ (result_status : String) (s1 s2 : String),
        apply_task_op s1 (TaskOp.finishOp result_status) =
          apply_task_op s2 (TaskOp.finishOp result_status))
    ∧ apply_task_op "canceled" (TaskOp.finishOp "SUCCESS") = "completed" := by
  refine ⟨?_, ?_, by decide⟩
  · intro s hs
    unfold apply_task_op
    rw [if_pos hs]
  · intro rs s1 s2
    rfl

/-- Witness for C5 (amended): cancel leaves an already canceled task
canceled. -/
theorem C5_amended_cancel_not_sticky_witness :
    apply_task_op "canceled" TaskOp.cancelOp = "canceled" :=
  C5_amended_cancel_not_sticky.1 "canceled" (Or.inr (Or.inr (Or.inl rfl)))

/-- C6: the claim that the next prompt holds exactly one feedback section
fails on the code: after two failed attempts the prompt built for the
third attempt contains the feedback header twice, because each refinement
appends to the previously refined prompt. -/
theorem C6_counterexample_two_feedback_sections :
    occurrences
        (next_prompt 5 (next_prompt 5 "Write a script." ["AssertionError: totals differ"] 0)
          ["ValueError: bad column"] 1)
        feedback_marker = 2
    ∧ occurrences "Write a script." feedback_marker = 0 := by
  constructor
  · decide
  · decide

/-- C6 (amended): the prompt for the next attempt is built by appending
the joined failure summaries to the prompt used for the failed attempt —
the previously refined prompt, not the original instruction — so feedback
sections accumulate and the prompt grows across attempts. -/
theorem C6_amended_prompt_accumulates :
    ∀ (max_retries : Nat) (current_prompt : String) (validation_feedback : List String)
      (current_retry_attempt : Nat),
      current_retry_attempt < max_retries →
      next_prompt max_retries current_prompt validation_feedback current_retry_attempt =
        current_prompt ++ feedback_block (join_with "\n" validation_feedback) := by
  intro m p fb a h
  unfold next_prompt prepare_for_retry
  rw [if_neg (by omega)]
  simp only [Option.getD_some, feedback_block]
  apply String.ext
  simp only [String.data_append, List.append_assoc]

/-- Witness for C6 (amended): one refinement step appends one feedback
block to the incoming prompt. -/
theorem C6_amended_prompt_accumulates_witness :
    next_prompt 5 "Sort the sheet." ["KeyError: spend_usd"] 0 =
      "Sort the sheet." ++ feedback_block (join_with "\n" ["KeyError: spend_usd"]) :=
  C6_amended_prompt_accumulates 5 "Sort the sheet." ["KeyError: spend_usd"] 0 (by decide)

/-- C7: the claim that every observable task status lies in the five-value
set fails on the code: the result status FAILURE_CRITICAL_EXECUTION, which
MainAgent.run constructs for critical execution failures, is absent from
the wrapper's status map and surfaces as the state "unknown". -/
theorem C7_counterexample_unknown_state :
    apply_task_op "submitted"
        (TaskOp.finishOp (run_status_name RunStatus.FAILURE_CRITICAL_EXECUTION)) = "unknown"
    ∧ "unknown" ∉ (["submitted", "working", "completed", "failed", "canceled"] :
        List String) := by
  constructor
  · decide
  · decide

/-- The status map sends every result status to completed, failed or
unknown. -/
theorem a2a_status_map_mem (result_status : String) :
    a2a_status_map result_status ∈ (["completed", "failed", "unknown"] : List String) := by
  unfold a2a_status_map
  split_ifs <;> simp

/-- One lifecycle operation keeps the stored state inside the five states
the wrapper can produce. -/
theorem apply_task_op_closure (s : String) (op : TaskOp)
    (hs : s ∈ (["submitted", "completed", "failed", "canceled", "unknown"] : List String)) :
    apply_task_op s op ∈
      (["submitted", "completed", "failed", "canceled", "unknown"] : List String) := by
  cases op with
  | cancelOp =>
    simp only [apply_task_op]
    split
    · exact hs
    · simp
  | finishOp rs =>
    have h := a2a_status_map_mem rs
    simp only [apply_task_op]
    simp only [List.mem_cons, List.not_mem_nil, or_false] at h ⊢
    tauto
  | configFailOp => simp [apply_task_op]

/-- C7 (amended): every status a task can carry lies in the set
{submitted, completed, failed, canceled, unknown} — the state working is
never assigned — and the run results FAILURE_EXECUTION and
FAILURE_CRITICAL_EXECUTION (like any status absent from the map) surface
as unknown rather than failed. -/
theorem C7_amended_status_set :
    (∀ ops : List TaskOp,
        ops.foldl apply_task_op "submitted" ∈
          (["submitted", "completed", "failed", "canceled", "unknown"] : List String))
    ∧ a2a_status_map (run_status_name RunStatus.FAILURE_EXECUTION) = "unknown"
    ∧ a2a_status_map (run_status_name RunStatus.FAILURE_CRITICAL_EXECUTION) = "unknown" := by
  refine ⟨?_, by decide, by decide⟩
  have key : ∀ (ops : List TaskOp) (s : String),
      s ∈ (["submitted", "completed", "failed", "canceled", "unknown"] : List String) →
      ops.foldl apply_task_op s ∈
        (["submitted", "completed", "failed", "canceled", "unknown"] : List String) := by
    intro ops
    induction ops with
    | nil => intro s hs; exact hs
    | cons op rest ih =>
      intro s hs
      rw [List.foldl_cons]
      exact ih _ (apply_task_op_closure s op hs)
  intro ops
  exact key ops "submitted" (by simp)

/-- C8 counterexample: on a timed-out execution whose `shutil.rmtree` call
raises, the exception is caught and only logged
(code_execution_module.py lines 214-221), so the run's events leave one
venv directory on disk — the environment directory is leaked, refuting
removal on every exit path. -/
theorem C8_counterexample_failed_removal_leaks :
    (execute_code_events
        { remove_temp_file_succeeds := true, remove_venv_dir_succeeds := false }
        ExecOutcome.timeoutExpired).foldl apply_event
      { venv_dirs := 0, temp_files := 0 } =
      ({ venv_dirs := 1, temp_files := 0 } : SandboxFs) := by
  decide

/-- C8 (amended): the `finally` block of execute_code attempts removal of
the temporary program file and the venv directory on every exit path that
created them, and when both OS removal calls succeed, each execution — and
any sequence of executions — leaves the filesystem counts unchanged; but a
removal call that raises is caught and logged only, so on every
venv-creating exit path a failed rmtree leaves the environment directory
behind. -/
theorem C8_amended_best_effort_cleanup :
    (∀ (o : ExecOutcome) (fs : SandboxFs),
        (execute_code_events
            { remove_temp_file_succeeds := true, remove_venv_dir_succeeds := true }
            o).foldl apply_event fs = fs)
    ∧ (∀ (outs : List ExecOutcome) (fs : SandboxFs),
        outs.foldl
          (fun acc o =>
            (execute_code_events
                { remove_temp_file_succeeds := true, remove_venv_dir_succeeds := true }
                o).foldl apply_event acc) fs = fs)
    ∧ (∀ (o : ExecOutcome) (fs : SandboxFs),
        o ≠ ExecOutcome.noCode →
        (execute_code_events
            { remove_temp_file_succeeds := true, remove_venv_dir_succeeds := false }
            o).foldl apply_event fs =
          { fs with venv_dirs := fs.venv_dirs + 1 }) := by
  have h1 : ∀ (o : ExecOutcome) (fs : SandboxFs),
      (execute_code_events
          { remove_temp_file_succeeds := true, remove_venv_dir_succeeds := true }
          o).foldl apply_event fs = fs := by
    intro o fs
    cases o <;> rfl
  refine ⟨h1, ?_, ?_⟩
  · intro outs
    induction outs with
    | nil => intro fs; rfl
    | cons o rest ih =>
      intro fs
      rw [List.foldl_cons, h1]
      exact ih fs
  · intro o fs h
    cases o with
    | noCode => exact absurd rfl h
    | venvCreationError => rfl
    | installFailure => rfl
    | completed exit_code stdout stderr => rfl
    | timeoutExpired => rfl
    | interpreterNotFound => rfl
    | unexpectedError msg => rfl

/-- Concrete instantiation of the amended C8 cleanup theorem: a timed-out
run with a failing rmtree leaves exactly one venv directory behind on an
initially clean filesystem. -/
theorem C8_amended_best_effort_cleanup_witness :
    ExecOutcome.timeoutExpired ≠ ExecOutcome.noCode ∧
    (execute_code_events
        { remove_temp_file_succeeds := true, remove_venv_dir_succeeds := false }
        ExecOutcome.timeoutExpired).foldl apply_event
      { venv_dirs := 0, temp_files := 0 } =
      ({ venv_dirs := 1, temp_files := 0 } : SandboxFs) :=
  ⟨by decide,
    C8_amended_best_effort_cleanup.2.2 ExecOutcome.timeoutExpired
      { venv_dirs := 0, temp_files := 0 } (by decide)⟩

/-- A prefix test for a longer needle implies the test for its prefix. -/
theorem prefix_match_of_append {xs ys : List Char} :
    ∀ {l : List Char}, prefix_match (xs ++ ys) l = true → prefix_match xs l = true := by
  induction xs with
  | nil => intro l _; rfl
  | cons c cs ih =>
    intro l h
    cases l with
    | nil => simp [prefix_match] at h
    | cons d ds =>
      simp only [List.cons_append, prefix_match, Bool.and_eq_true] at h ⊢
      exact ⟨h.1, ih h.2⟩

/-- A needle absent from a haystack stays absent when extended. -/
theorem find_sub_none_append {xs ys : List Char} :
    ∀ {hay : List Char}, find_sub xs hay = none → find_sub (xs ++ ys) hay = none := by
  intro hay
  induction hay with
  | nil =>
    intro h
    unfold find_sub at h ⊢
    split at h
    · exact absurd h (by simp)
    · next hp =>
      rw [if_neg (fun hc => hp (prefix_match_of_append hc))]
  | cons c t ih =>
    intro h
    unfold find_sub at h ⊢
    split at h
    · exact absurd h (by simp)
    · next hp =>
      have ht : find_sub xs t = none := by
        cases hcase : find_sub xs t
        · rfl
        · rw [hcase] at h; simp at h
      rw [if_neg (fun hc => hp (prefix_match_of_append hc))]
      rw [ih ht]
      rfl

/-- `contains_sub` false means the find comes back empty. -/
theorem find_none_of_contains_false {t needle : String}
    (h : contains_sub t needle = false) : str_find t needle = none := by
  unfold contains_sub at h
  cases hcase : str_find t needle
  · rfl
  · rw [hcase] at h; simp at h

/-- A response with no generic fence marker has no python-tagged fence
either. -/
theorem python_fence_find_none {t : String} (h : contains_sub t code_fence = false) :
    str_find t python_fence = none := by
  have hc : str_find t code_fence = none := find_none_of_contains_false h
  unfold str_find at hc ⊢
  have hdata : python_fence.data = code_fence.data ++ "python".data := by decide
  rw [hdata]
  exact find_sub_none_append hc

/-- C9: the claim that no code is returned when neither a tagged nor a
heuristic fenced block exists fails on the code: a short fence-free
response that merely contains an import token is returned whole by the
raw-response fallback. -/
theorem C9_counterexample_raw_fallback :
    extract_code_from_response "import os\nprint(os.getcwd())" =
      some "import os\nprint(os.getcwd())" := by
  decide

/-- C9 (amended): extraction prefers the first closed ```python block;
with no python tag it falls back to the first closed generic block whose
content carries a def/import/print/class token; with no fence marker at
all it still returns the whole stripped response when it has fewer than
20 lines and carries a def/import/print token, and returns no code only
otherwise. -/
theorem C9_amended_extraction_order :
    (∀ (t : String) (i j : Nat),
        str_find t python_fence = some i →
        str_find_from t code_fence (i + python_fence.length) = some j →
        extract_code_from_response t =
          some (py_strip (str_slice t (i + python_fence.length) j)))
    ∧ (∀ (t : String) (g e : Nat),
        str_find t python_fence = none →
        str_find t code_fence = some g →
        str_find_from t code_fence (g + code_fence.length) = some e →
        heuristic_block_is_code (py_strip (str_slice t (g + code_fence.length) e)) = true →
        extract_code_from_response t =
          some (py_strip (str_slice t (g + code_fence.length) e)))
    ∧ (∀ t : String,
        contains_sub t code_fence = false →
        py_line_count t < 20 →
        raw_response_looks_like_code t = true →
        extract_code_from_response t = some (py_strip t))
    ∧ (∀ t : String,
        contains_sub t code_fence = false →
        (20 ≤ py_line_count t ∨ raw_response_looks_like_code t = false) →
        extract_code_from_response t = none) := by
  refine ⟨?_, ?_, ?_, ?_⟩
  · intro t i j h1 h2
    simp [extract_code_from_response, h1, h2]
  · intro t g e h1 h2 h3 h4
    simp [extract_code_from_response, extract_general_block, h1, h2, h3, h4]
  · intro t h1 h2 h3
    have hp := python_fence_find_none h1
    have hg := find_none_of_contains_false h1
    simp only [extract_code_from_response, hp, extract_general_block, hg,
      extract_raw_fallback]
    rw [if_pos ⟨by simp [h1], h2, h3⟩]
  · intro t h1 h2
    have hp := python_fence_find_none h1
    have hg := find_none_of_contains_false h1
    simp only [extract_code_from_response, hp, extract_general_block, hg,
      extract_raw_fallback]
    rw [if_neg ?_]
    rintro ⟨-, hl, hr⟩
    rcases h2 with h2 | h2
    · omega
    · rw [h2] at hr; simp at hr

/-- Witness for C9 (amended): the raw-response fallback fires on a short
fence-free import line. -/
theorem C9_amended_extraction_order_witness :
    extract_code_from_response "import pandas as pd" = some (py_strip "import pandas as pd") :=
  C9_amended_extraction_order.2.2.1 "import pandas as pd" (by decide) (by decide) (by decide)

/-- Appending strings yields the empty string only from empty parts. -/
theorem string_append_eq_empty_iff (a b : String) :
    (a ++ b = "") ↔ (a = "" ∧ b = "") := by
  constructor
  · intro h
    have hd : a.data ++ b.data = [] := by
      have hc := congrArg String.data h
      rw [String.data_append] at hc
      exact hc
    rcases List.append_eq_nil.mp hd with ⟨ha, hb⟩
    exact ⟨String.ext (by rw [ha]), String.ext (by rw [hb])⟩
  · rintro ⟨rfl, rfl⟩
    rfl

/-- Every list is a prefix of itself extended. -/
theorem prefix_match_self_append : ∀ (xs l : List Char), prefix_match xs (xs ++ l) = true := by
  intro xs l
  induction xs with
  | nil => rfl
  | cons c cs ih => simp [prefix_match, ih]

/-- The marker produced for an Excel path starts with the Excel marker. -/
theorem excel_marker_startswith (path : String) :
    py_startswith ("EXCEL_FILE_MARKER:" ++ path) "EXCEL_FILE_MARKER:" = true := by
  unfold py_startswith
  rw [String.data_append]
  exact prefix_match_self_append _ _

/-- A single file's loop contribution is invisible (no context text, no
Excel directive) exactly when the file is not a usable input: not
Excel-classified and without nonempty readable text content. -/
theorem file_contribution_trivial_iff (path : String) (fs : String → FsOutcome) :
    ((file_contribution path fs).file_context_str = "" ∧
      (file_contribution path fs).excel_file_instructions = []) ↔
      usable_file_input fs path = false := by
  by_cases hb : (py_lower (splitext_ext path) == ".xlsx" ||
      py_lower (splitext_ext path) == ".xls") = true
  · have hne : ¬("EXCEL_FILE_MARKER:" ++ path = "") := by
      intro hc
      exact absurd ((string_append_eq_empty_iff _ _).mp hc).1 (by simp)
    simp [file_contribution, read_file_content, usable_file_input, is_excel_path, hb,
      hne, excel_marker_startswith]
  · have hb2 : (py_lower (splitext_ext path) == ".xlsx" ||
        py_lower (splitext_ext path) == ".xls") = false := Bool.eq_false_iff.mpr hb
    cases hfs : fs path with
    | found content =>
      by_cases hc : content = ""
      · subst hc
        simp [file_contribution, read_file_content, usable_file_input, is_excel_path,
          hb2, hfs]
      · by_cases hm1 : py_startswith content "EXCEL_FILE_MARKER:" = true
        · simp [file_contribution, read_file_content, usable_file_input, is_excel_path,
            hb2, hfs, hc, hm1]
        · by_cases hm2 : py_startswith content "NON_TEXT_FILE_MARKER:" = true
          · simp [file_contribution, read_file_content, usable_file_input, is_excel_path,
              hb2, hfs, hc, hm1, hm2, string_append_eq_empty_iff]
          · simp [file_contribution, read_file_content, usable_file_input, is_excel_path,
              hb2, hfs, hc, hm1, hm2, string_append_eq_empty_iff]
    | notFound =>
      simp [file_contribution, read_file_content, usable_file_input, is_excel_path,
        hb2, hfs]
    | decodeError =>
      simp [file_contribution, read_file_content, usable_file_input, is_excel_path,
        hb2, hfs]
    | otherError msg =>
      simp [file_contribution, read_file_content, usable_file_input, is_excel_path,
        hb2, hfs]

/-- The whole file loop contributes nothing to the prompt exactly when no
path is a usable input. -/
theorem gather_trivial_iff (paths : List String) (fs : String → FsOutcome) :
    ((gather_file_inputs paths fs).file_context_str = "" ∧
      (gather_file_inputs paths fs).excel_file_instructions = []) ↔
      paths.all (fun p => !(usable_file_input fs p)) = true := by
  induction paths with
  | nil => simp [gather_file_inputs]
  | cons p rest ih =>
    simp only [gather_file_inputs, List.all_cons, Bool.and_eq_true]
    rw [string_append_eq_empty_iff, List.append_eq_nil]
    constructor
    · rintro ⟨⟨h1, h2⟩, h3, h4⟩
      refine ⟨?_, ih.mp ⟨h2, h4⟩⟩
      have hu := (file_contribution_trivial_iff p fs).mp ⟨h1, h3⟩
      simp [hu]
    · rintro ⟨h1, h2⟩
      have hu : usable_file_input fs p = false := by
        cases hval : usable_file_input fs p
        · rfl
        · rw [hval] at h1; simp at h1
      rcases (file_contribution_trivial_iff p fs).mpr hu with ⟨h1c, h3c⟩
      rcases ih.mpr h2 with ⟨h2c, h4c⟩
      exact ⟨⟨h1c, h2c⟩, h3c, h4c⟩

/-- C10: prompt assembly fails with the empty-input error, producing an
empty prompt, exactly when the instruction text is empty and no file input
is usable (Excel-classified or readable with nonempty content); when any
instruction text or usable file input is present, a nonempty prompt is
returned with no error. -/
theorem C10_empty_input_error :
    ∀ (instructions : String) (paths : List String) (fs : String → FsOutcome),
      ((process_instructions instructions paths fs).error.isSome = true ↔
        (instructions = "" ∧ paths.all (fun p => !(usable_file_input fs p)) = true))
      ∧ ((process_instructions instructions paths fs).error.isSome = true →
          (process_instructions instructions paths fs).prompt = "")
      ∧ ((process_instructions instructions paths fs).error = none →
          (process_instructions instructions paths fs).prompt ≠ "") := by
  intro instructions paths fs
  unfold process_instructions
  by_cases hcond : instructions = "" ∧
      (gather_file_inputs paths fs).file_context_str = "" ∧
      (gather_file_inputs paths fs).excel_file_instructions = []
  · rw [if_pos hcond]
    refine ⟨?_, fun _ => rfl, ?_⟩
    · constructor
      · intro _
        exact ⟨hcond.1, (gather_trivial_iff paths fs).mp ⟨hcond.2.1, hcond.2.2⟩⟩
      · intro _
        rfl
    · intro h
      simp at h
  · rw [if_neg hcond]
    refine ⟨?_, ?_, ?_⟩
    · constructor
      · intro h
        simp at h
      · rintro ⟨h1, h2⟩
        rcases (gather_trivial_iff paths fs).mpr h2 with ⟨hg1, hg2⟩
        exact absurd ⟨h1, hg1, hg2⟩ hcond
    · intro h
      simp at h
    · intro _ hc
      simp only [] at hc
      exact absurd ((string_append_eq_empty_iff _ _).mp hc).2 (by simp [task_directive])

/-- Witness for C10: empty instructions with a single undecodable file
yield the error and an empty prompt, while nonempty instructions yield a
prompt with no error. -/
theorem C10_empty_input_error_witness :
    (process_instructions "" ["report.bin"] (fun _ => FsOutcome.decodeError)).prompt = ""
    ∧ (process_instructions "sum two numbers" [] (fun _ => FsOutcome.notFound)).prompt ≠ "" :=
  ⟨(C10_empty_input_error "" ["report.bin"] (fun _ => FsOutcome.decodeError)).2.1 (by decide),
    (C10_empty_input_error "sum two numbers" [] (fun _ => FsOutcome.notFound)).2.2 (by decide)⟩

end WorkflowAI
